import Mathlib

/-!
Verification of the Unity-warehouse adapter layer
(`src/epymarl/src/envs/unity_wrapper.py`, `warehouse_env.py`, `__init__.py`).

Shallow embedding: the simulation (Unity/ML-Agents) is external, so every
adapter operation that reads `get_steps` is parameterised by the per-agent
decision-step and terminal-step sets the simulation would report at that
moment.  Floating-point rewards and observation entries are idealised as
rationals; Python exceptions are `Option`/`Except` failures.
-/

namespace Warehouse

/-- One entry of an ML-Agents step set: the agent's vector observation
(`steps.obs[0][i]`) together with its scalar reward (`steps.reward[i]`). -/
structure AgentStep where
  obs : List ℚ
  reward : ℚ
  deriving Repr, DecidableEq

/-- The slice of `behavior_specs[behavior_name]` the wrapper reads:
`action_spec.discrete_branches` (branch cardinalities) and the widths
`observation_specs[j].shape[0]` of the declared observation components. -/
structure BehaviorSpec where
  discrete_branches : List Nat
  observation_specs : List Nat
  deriving Repr, DecidableEq

/-- The mutable attributes of `UnityWarehouseEnv` (the connection handle and
behavior name are external and carry no modelled state). -/
structure EnvState where
  n_agents : Nat
  n_actions : Nat
  obs_shape : Nat
  episode_limit : Nat
  episode_count : Nat
  episode_steps : Nat
  total_steps : Nat
  deriving Repr, DecidableEq

/-- The pair of step sets returned by `unity_env.get_steps(behavior_name)`
at one read-back point. -/
structure SimTick where
  decision : List AgentStep
  terminal : List AgentStep
  deriving Repr, DecidableEq

/-- `UnityWarehouseEnv.__init__`, lines 44-69: after the blind reset and the
forced first tick, count the agents in the decision set, fall back to the
default 4 (with a warning, returned as the Bool) when zero are found, read
`discrete_branches[0]` (an IndexError — `none` — if there is no branch) and
the first observation width with fallback 47, and zero the episode clock. -/
def initEnv (decision_steps : List AgentStep) (spec : BehaviorSpec) :
    Option (EnvState × Bool) :=
  let found := decision_steps.length
  let warned := found == 0
  let nAgents := if found = 0 then 4 else found
  match spec.discrete_branches.head? with
  | none => none
  | some nActions =>
      let obsShape :=
        match spec.observation_specs.head? with
        | some w => w
        | none => 47
      some ({ n_agents := nAgents
              n_actions := nActions
              obs_shape := obsShape
              episode_limit := 1000
              episode_count := 0
              episode_steps := 0
              total_steps := 0 }, warned)

/-- `np.zeros(self.obs_shape)` as a rational vector. -/
def zerosObs (n : Nat) : List ℚ :=
  List.replicate n 0

/-- `UnityWarehouseEnv.get_obs`, lines 138-152: if the current decision set
is non-empty, return its observation rows in agent-iteration order;
otherwise return `n_agents` zero vectors of width `obs_shape`. -/
def get_obs (s : EnvState) (decision : List AgentStep) : List (List ℚ) :=
  if decision.length > 0 then decision.map AgentStep.obs
  else List.replicate s.n_agents (zerosObs s.obs_shape)

/-- Python list indexing `l[i]` for an `Int` index: non-negative indices
from the front, negative indices from the back, `none` is an IndexError. -/
def pyIdx {α : Type} (l : List α) (i : ℤ) : Option α :=
  if 0 ≤ i then l.get? i.toNat
  else if 0 ≤ (l.length : ℤ) + i then l.get? ((l.length : ℤ) + i).toNat
  else none

/-- `UnityWarehouseEnv.get_obs_agent`, lines 154-159: guard
`agent_id < len(obs_list)` (a Python `int` comparison, so negative ids pass),
then Python-index the list; otherwise return `np.zeros(obs_shape)`. -/
def get_obs_agent (s : EnvState) (decision : List AgentStep) (agent_id : ℤ) :
    Option (List ℚ) :=
  let obs_list := get_obs s decision
  if agent_id < (obs_list.length : ℤ) then pyIdx obs_list agent_id
  else some (zerosObs s.obs_shape)

/-- `UnityWarehouseEnv.get_obs_size`. -/
def get_obs_size (s : EnvState) : Nat :=
  s.obs_shape

/-- `UnityWarehouseEnv.get_state`, lines 165-174: concatenate all agent
observations; `np.concatenate` raises (`none`) on an empty list of arrays. -/
def get_state (s : EnvState) (decision : List AgentStep) : Option (List ℚ) :=
  let obs := get_obs s decision
  if obs.length > 0 then some obs.flatten else none

/-- `UnityWarehouseEnv.get_state_size`, line 178: `obs_shape * n_agents`. -/
def get_state_size (s : EnvState) : Nat :=
  s.obs_shape * s.n_agents

/-- `UnityWarehouseEnv.get_total_actions`. -/
def get_total_actions (s : EnvState) : Nat :=
  s.n_actions

/-- The reward block of `UnityWarehouseEnv.step`, lines 111-116:
start from `0.0`, overwrite with `np.sum(decision_steps.reward)` when the
decision set is non-empty, then add `np.sum(terminal_steps.reward)` when the
terminal set is non-empty. -/
def stepReward (decision terminal : List AgentStep) : ℚ :=
  let r : ℚ := 0
  let r := if decision.length > 0 then (decision.map AgentStep.reward).sum else r
  if terminal.length > 0 then r + (terminal.map AgentStep.reward).sum else r

/-- What `UnityWarehouseEnv.step` returns (obs, reward, terminated,
truncated, info), with the two info fields it populates. -/
structure StepResult where
  obs : List (List ℚ)
  reward : ℚ
  terminated : Bool
  truncated : Bool
  info_episode_steps : Nat
  info_total_steps : Nat
  deriving Repr, DecidableEq

/-- `UnityWarehouseEnv.step`, lines 87-136, from the submit point onward:
`tick` is the pair of step sets read back after `unity_env.step()`.
Computes the team reward, increments `episode_steps`, sets
`terminated = len(terminal_steps) > 0`,
`truncated = episode_steps >= episode_limit and not terminated`,
increments `total_steps`, and re-derives the observation list. -/
def stepEnv (s : EnvState) (tick : SimTick) : EnvState × StepResult :=
  let reward := stepReward tick.decision tick.terminal
  let episodeSteps := s.episode_steps + 1
  let terminated : Bool := tick.terminal.length > 0
  let truncated : Bool := decide (episodeSteps ≥ s.episode_limit) && !terminated
  let totalSteps := s.total_steps + 1
  let s' := { s with episode_steps := episodeSteps, total_steps := totalSteps }
  let obs := get_obs s' tick.decision
  (s', { obs := obs
         reward := reward
         terminated := terminated
         truncated := truncated
         info_episode_steps := episodeSteps
         info_total_steps := totalSteps })

/-- `UnityWarehouseEnv.reset`, lines 76-85: reset the simulation (whose
post-reset decision set is `tick.decision`), zero `episode_steps`, bump the
episode counter, and return the fresh observations and state. -/
def resetEnv (s : EnvState) (tick : SimTick) :
    EnvState × (List (List ℚ) × Option (List ℚ)) :=
  let s' := { s with episode_steps := 0, episode_count := s.episode_count + 1 }
  (s', (get_obs s' tick.decision, get_state s' tick.decision))

/-- One externally-driven operation on a live adapter: a `reset` or a `step`,
each carrying the step sets the simulation reports at its read-back point. -/
inductive Op where
  | reset (tick : SimTick)
  | step (tick : SimTick)
  deriving Repr, DecidableEq

/-- State transition of one operation. -/
def applyOp (s : EnvState) : Op → EnvState
  | Op.reset tick => (resetEnv s tick).1
  | Op.step tick => (stepEnv s tick).1

/-- State after a sequence of operations. -/
def applyOps (s : EnvState) (ops : List Op) : EnvState :=
  ops.foldl applyOp s

/-- The env-info dict of `UnityWarehouseEnv.get_env_info`, lines 200-209. -/
structure EnvInfo where
  state_shape : Nat
  obs_shape : Nat
  n_actions : Nat
  n_agents : Nat
  episode_limit : Nat
  deriving Repr, DecidableEq

/-- `UnityWarehouseEnv.get_env_info`: recomputed from the adapter's current
attributes on every call. -/
def get_env_info (s : EnvState) : EnvInfo :=
  { state_shape := get_state_size s
    obs_shape := get_obs_size s
    n_actions := get_total_actions s
    n_agents := s.n_agents
    episode_limit := s.episode_limit }

/-- The facade `UnityWarehouse` (warehouse_env.py): holds the adapter and
the `_env_info` dict captured once in `__init__` (line 32). -/
structure UnityWarehouse where
  env : EnvState
  env_info : EnvInfo
  deriving Repr, DecidableEq

/-- `UnityWarehouse.__init__`, lines 16-35, after the adapter exists:
store the adapter and cache `self._env_info = self.env.get_env_info()`. -/
def facadeInit (e : EnvState) : UnityWarehouse :=
  { env := e, env_info := get_env_info e }

/-- Facade `reset`/`step` (warehouse_env.py lines 37-41 and 75-77): delegate
to the adapter; `_env_info` is never reassigned. -/
def facadeApply (f : UnityWarehouse) (o : Op) : UnityWarehouse :=
  { f with env := applyOp f.env o }

/-- Facade state after a sequence of operations. -/
def facadeApplyOps (f : UnityWarehouse) (ops : List Op) : UnityWarehouse :=
  ops.foldl facadeApply f

/-- `UnityWarehouse.get_env_info`, lines 95-97: return the cached dict. -/
def facade_get_env_info (f : UnityWarehouse) : EnvInfo :=
  f.env_info

/-- The keyword arguments reaching the registry entry for
`unity_warehouse`; each field is `none` when the key is absent. -/
structure EnvKwargs where
  env_path : Option String
  no_graphics : Option Bool
  time_scale : Option ℚ
  worker_id : Option Nat
  common_reward : Option Bool
  reward_scalarisation : Option String
  deriving Repr, DecidableEq

/-- The four constructor parameters `UnityWarehouse.__init__` extracts with
`kwargs.get(...)` (warehouse_env.py lines 17-21); all other keys, including
`common_reward` and `reward_scalarisation`, are ignored. -/
structure ConstructArgs where
  env_path : Option String
  no_graphics : Bool
  time_scale : ℚ
  worker_id : Nat
  deriving Repr, DecidableEq

/-- `kwargs.get` extraction in `UnityWarehouse.__init__`, lines 17-21. -/
def extractArgs (k : EnvKwargs) : ConstructArgs :=
  { env_path := k.env_path
    no_graphics := k.no_graphics.getD false
    time_scale := k.time_scale.getD 20
    worker_id := k.worker_id.getD 0 }

/-- Errors the registry layer could surface before connecting; the SMAC
entries raise `assertionError` from `__check_and_prepare_smac_kwargs`. -/
inductive ConfigError where
  | assertionError (msg : String)
  deriving Repr, DecidableEq

/-- `unity_warehouse_fn` (envs/__init__.py lines 78-79) composed with
`UnityWarehouse.__init__`: unlike the SMAC entries it applies no kwargs
check, so it can only return `Except.ok`; the inner `Option` is the
construction of the adapter itself (`initEnv`), parameterised by what the
simulation reports at the forced first tick. -/
def unity_warehouse_fn (k : EnvKwargs) (firstTickDecision : List AgentStep)
    (spec : BehaviorSpec) : Except ConfigError (Option UnityWarehouse) :=
  let _args := extractArgs k
  Except.ok ((initEnv firstTickDecision spec).map fun p => facadeInit p.1)

/-! ### Concrete fixtures used by witnesses and counterexamples -/

/-- An adapter state as produced for a 4-agent scene with 6 actions and
observation width 2. -/
def sFour : EnvState :=
  { n_agents := 4, n_actions := 6, obs_shape := 2, episode_limit := 1000
    episode_count := 0, episode_steps := 0, total_steps := 0 }

/-- A decision set of four agents with width-2 observations. -/
def dFour : List AgentStep :=
  [⟨[1, 2], 0⟩, ⟨[3, 4], 0⟩, ⟨[5, 6], 0⟩, ⟨[7, 8], 1⟩]

/-- A decision set of three agents with width-2 observations. -/
def dThree : List AgentStep :=
  [⟨[1, 2], 0⟩, ⟨[3, 4], 0⟩, ⟨[5, 6], 0⟩]

/-- A behavior spec with one six-way discrete branch and one width-2
observation component. -/
def specDefault : BehaviorSpec :=
  { discrete_branches := [6], observation_specs := [2] }

/-- Registry kwargs in which the `common_reward` key is absent. -/
def kwargsNoCommonReward : EnvKwargs :=
  { env_path := none, no_graphics := some true, time_scale := some 20
    worker_id := some 0, common_reward := none, reward_scalarisation := none }

/-- Registry kwargs in which `common_reward` is present but false. -/
def kwargsFalseCommonReward : EnvKwargs :=
  { env_path := none, no_graphics := some true, time_scale := some 20
    worker_id := some 0, common_reward := some false
    reward_scalarisation := some "sum" }

/-! ### Helper lemmas -/

/-- The length of a concatenation of uniformly sized vectors. -/
theorem flatten_length_of_uniform {α : Type} (l : List (List α)) (k : Nat)
    (h : ∀ x ∈ l, x.length = k) : l.flatten.length = l.length * k := by
  induction l with
  | nil => simp
  | cons x xs ih =>
      have hx : x.length = k := h x (List.mem_cons_self x xs)
      have ih2 := ih fun y hy => h y (List.mem_cons_of_mem x hy)
      simp [List.flatten_cons, hx, ih2, Nat.succ_mul, Nat.add_comm]

/-- No single operation decreases `total_steps`. -/
theorem total_steps_mono_op (s : EnvState) (o : Op) :
    s.total_steps ≤ (applyOp s o).total_steps := by
  cases o with
  | reset tick => simp [applyOp, resetEnv]
  | step tick => simp [applyOp, stepEnv]

/-- No sequence of operations decreases `total_steps`. -/
theorem total_steps_mono_ops (s : EnvState) (ops : List Op) :
    s.total_steps ≤ (applyOps s ops).total_steps := by
  induction ops generalizing s with
  | nil => exact Nat.le_refl _
  | cons o ops ih =>
      exact Nat.le_trans (total_steps_mono_op s o) (ih (applyOp s o))

/-- Facade delegation never touches the cached `_env_info`. -/
theorem facadeApplyOps_env_info (f : UnityWarehouse) (ops : List Op) :
    (facadeApplyOps f ops).env_info = f.env_info := by
  induction ops generalizing f with
  | nil => rfl
  | cons o ops ih =>
      have h : facadeApplyOps f (o :: ops) = facadeApplyOps (facadeApply f o) ops := rfl
      rw [h, ih (facadeApply f o)]
      rfl

/-! ### Claim theorems -/

/-- C1: on every `step`, `terminated` is true iff the post-tick terminal-step
set is non-empty, `truncated` is true iff the incremented `episode_steps` has
reached `episode_limit` and `terminated` is false, and the two flags are never
both true on the same tick. -/
theorem step_flags_mutually_exclusive (s : EnvState) (tick : SimTick) :
    ((stepEnv s tick).2.terminated = true ↔ tick.terminal ≠ []) ∧
    ((stepEnv s tick).2.truncated = true ↔
      ((stepEnv s tick).2.info_episode_steps ≥ s.episode_limit ∧
        (stepEnv s tick).2.terminated = false)) ∧
    ¬((stepEnv s tick).2.terminated = true ∧ (stepEnv s tick).2.truncated = true) := by
  have hterm : (stepEnv s tick).2.terminated = decide (0 < tick.terminal.length) := rfl
  have htrunc : (stepEnv s tick).2.truncated =
      (decide (s.episode_steps + 1 ≥ s.episode_limit) &&
        !(decide (0 < tick.terminal.length))) := rfl
  have hinfo : (stepEnv s tick).2.info_episode_steps = s.episode_steps + 1 := rfl
  refine ⟨?_, ?_, ?_⟩
  · rw [hterm]; simp [List.length_pos]
  · rw [htrunc, hinfo, hterm]
    simp [Bool.and_eq_true, Bool.not_eq_true', decide_eq_true_iff,
      decide_eq_false_iff_not]
  · rintro ⟨h1, h2⟩
    rw [hterm] at h1
    rw [htrunc, h1] at h2
    simp at h2

/-- C2: the scalar reward of every `step` equals the exact sum of the
per-agent rewards of the post-tick decision-step set plus those of the
post-tick terminal-step set, with no normalisation by agent count, and is
`0` when both sets are empty. -/
theorem step_reward_exact_sum (s : EnvState) (tick : SimTick) :
    (stepEnv s tick).2.reward =
      (tick.decision.map AgentStep.reward).sum +
        (tick.terminal.map AgentStep.reward).sum ∧
    stepReward [] [] = 0 := by
  refine ⟨?_, rfl⟩
  show stepReward tick.decision tick.terminal = _
  cases hd : tick.decision <;> cases ht : tick.terminal <;>
    simp [stepReward]

/-- C3: `reset` zeroes `episode_steps` and bumps the episode counter; every
`step` increments `episode_steps` and `total_steps` by exactly 1
unconditionally; and `total_steps` is monotonically non-decreasing over every
sequence of operations on one adapter instance. -/
theorem episode_clock_invariants :
    (∀ (s : EnvState) (t : SimTick),
      (applyOp s (Op.reset t)).episode_steps = 0 ∧
      (applyOp s (Op.reset t)).episode_count = s.episode_count + 1 ∧
      (applyOp s (Op.reset t)).total_steps = s.total_steps) ∧
    (∀ (s : EnvState) (t : SimTick),
      (applyOp s (Op.step t)).episode_steps = s.episode_steps + 1 ∧
      (applyOp s (Op.step t)).total_steps = s.total_steps + 1) ∧
    (∀ (s : EnvState) (ops : List Op),
      s.total_steps ≤ (applyOps s ops).total_steps) := by
  refine ⟨?_, ?_, total_steps_mono_ops⟩
  · intro s t; exact ⟨rfl, rfl, rfl⟩
  · intro s t; exact ⟨rfl, rfl⟩

/-- C6: after any sequence of reset/step operations, the facade's
`get_env_info` still returns the descriptor computed once at construction
from the adapter's initial attributes. -/
theorem facade_env_info_stable (e : EnvState) (ops : List Op) :
    facade_get_env_info (facadeApplyOps (facadeInit e) ops) = get_env_info e :=
  facadeApplyOps_env_info (facadeInit e) ops

/-- C4 counterexample: at a tick where the decision set has 3 agents of
width 2 while `n_agents = 4`, the state vector has length 6 but
`get_state_size` (= `n_agents * obs_shape`) is 8, so
`len(get_state()) == n_agents * obs_shape` fails as an every-tick claim. -/
theorem get_state_length_cex :
    (get_state sFour dThree).map List.length = some 6 ∧
    get_state_size sFour = 8 ∧
    (get_state sFour dThree).map List.length ≠ some (get_state_size sFour) := by
  decide

/-- C4 (amended): `get_state` is exactly the concatenation of `get_obs` in
agent order whenever the observation list is non-empty, and
`get_state_size = n_agents * obs_shape`; the state length equals
`n_agents * obs_shape` on the ticks where the decision set is empty or has
exactly `n_agents` members of width `obs_shape`. -/
theorem get_state_concat_and_size (s : EnvState) (d : List AgentStep)
    (hne : get_obs s d ≠ [])
    (hw : ∀ a ∈ d, a.obs.length = s.obs_shape)
    (hcard : d = [] ∨ d.length = s.n_agents) :
    get_state s d = some (get_obs s d).flatten ∧
    get_state_size s = s.n_agents * s.obs_shape ∧
    (get_obs s d).flatten.length = s.n_agents * s.obs_shape := by
  have hlen0 : 0 < (get_obs s d).length := List.length_pos.mpr hne
  refine ⟨by simp [get_state, hlen0], by simp [get_state_size, Nat.mul_comm], ?_⟩
  cases d with
  | nil =>
      have hobs : get_obs s [] = List.replicate s.n_agents (zerosObs s.obs_shape) := by
        simp [get_obs]
      rw [hobs, flatten_length_of_uniform _ s.obs_shape
        (fun x hx => by rw [List.eq_of_mem_replicate hx]; simp [zerosObs]),
        List.length_replicate]
  | cons a d' =>
      have hobs : get_obs s (a :: d') = (a :: d').map AgentStep.obs := by
        simp [get_obs]
      have hcard' : (a :: d').length = s.n_agents := by
        rcases hcard with h | h
        · exact absurd h (by simp)
        · exact h
      rw [hobs, flatten_length_of_uniform _ s.obs_shape ?hwmap,
        List.length_map, hcard']
      intro x hx
      rcases List.mem_map.mp hx with ⟨b, hb, rfl⟩
      exact hw b hb

/-- Witness for C4 at a four-agent tick of width-2 observations. -/
theorem get_state_concat_and_size_w :
    get_state sFour dFour = some (get_obs sFour dFour).flatten ∧
    get_state_size sFour = sFour.n_agents * sFour.obs_shape ∧
    (get_obs sFour dFour).flatten.length = sFour.n_agents * sFour.obs_shape :=
  get_state_concat_and_size sFour dFour (by decide) (by decide)
    (Or.inr (by decide))

/-- C5 counterexample: at a tick where the decision set has 3 members while
`n_agents = 4`, `get_obs` returns 3 vectors, so `len(get_obs()) == n_agents`
fails on ticks whose decision-set cardinality differs from `n_agents`. -/
theorem get_obs_length_cex :
    (get_obs sFour dThree).length = 3 ∧ sFour.n_agents = 4 ∧
    (get_obs sFour dThree).length ≠ sFour.n_agents := by
  decide

/-- C5 (amended): `get_obs` returns one vector per decision-set member when
that set is non-empty and `n_agents` zero vectors otherwise; so its length is
`n_agents` exactly when the set is empty or its cardinality is `n_agents`,
and every vector has width `obs_shape` provided the simulation reports
width-`obs_shape` rows (the zero-vector fallback always does). -/
theorem get_obs_shape (s : EnvState) (d : List AgentStep)
    (hw : ∀ a ∈ d, a.obs.length = s.obs_shape) :
    (get_obs s d).length = (if 0 < d.length then d.length else s.n_agents) ∧
    (∀ o ∈ get_obs s d, o.length = s.obs_shape) ∧
    (d.length = s.n_agents → (get_obs s d).length = s.n_agents) := by
  cases d with
  | nil =>
      have hobs : get_obs s [] = List.replicate s.n_agents (zerosObs s.obs_shape) := by
        simp [get_obs]
      refine ⟨by simp [get_obs], ?_, ?_⟩
      · intro o ho
        rw [hobs] at ho
        rw [List.eq_of_mem_replicate ho]
        simp [zerosObs]
      · intro _
        simp [get_obs]
  | cons a d' =>
      have hobs : get_obs s (a :: d') = (a :: d').map AgentStep.obs := by
        simp [get_obs]
      refine ⟨by simp [get_obs], ?_, ?_⟩
      · intro o ho
        rw [hobs] at ho
        rcases List.mem_map.mp ho with ⟨b, hb, rfl⟩
        exact hw b hb
      · intro h
        simpa [get_obs] using h

/-- Witness for C5 at a four-agent tick of width-2 observations. -/
theorem get_obs_shape_w : (get_obs sFour dFour).length = sFour.n_agents := by
  have h := get_obs_shape sFour dFour (by decide)
  exact h.2.2 (by decide)

/-- C7 counterexample: the registry entry constructs the environment
successfully — `Except.ok`, no configuration error — both when the
`common_reward` key is absent and when it is present but false. -/
theorem unity_fn_no_config_error_cex :
    unity_warehouse_fn kwargsNoCommonReward dFour specDefault =
      Except.ok (some (facadeInit sFour)) ∧
    unity_warehouse_fn kwargsFalseCommonReward dFour specDefault =
      Except.ok (some (facadeInit sFour)) :=
  ⟨rfl, rfl⟩

/-- C7 (amended): the registry's `unity_warehouse` entry performs no
common-reward validation: construction always yields `Except.ok` and its
result is unchanged by the `common_reward` and `reward_scalarisation`
entries, which the facade constructor simply ignores. -/
theorem unity_fn_ignores_reward_flags (k : EnvKwargs) (d : List AgentStep)
    (spec : BehaviorSpec) :
    (∃ r, unity_warehouse_fn k d spec = Except.ok r) ∧
    (∀ (cr : Option Bool) (rs : Option String),
      unity_warehouse_fn
          { k with common_reward := cr, reward_scalarisation := rs } d spec =
        unity_warehouse_fn k d spec) :=
  ⟨⟨_, rfl⟩, fun _ _ => rfl⟩

/-- C8: when the decision set after the forced first tick is empty,
construction still succeeds (no exception), `n_agents` falls back to the
default 4, and the warning flag is set. -/
theorem init_zero_agents_fallback (spec : BehaviorSpec) (b : Nat)
    (h : spec.discrete_branches.head? = some b) :
    initEnv [] spec =
      some ({ n_agents := 4
              n_actions := b
              obs_shape := match spec.observation_specs.head? with
                           | some w => w
                           | none => 47
              episode_limit := 1000
              episode_count := 0
              episode_steps := 0
              total_steps := 0 }, true) := by
  simp [initEnv, h]

/-- Witness for C8 with a one-branch, one-observation-component spec. -/
theorem init_zero_agents_fallback_w :
    initEnv [] specDefault =
      some ({ n_agents := 4, n_actions := 6, obs_shape := 2
              episode_limit := 1000, episode_count := 0
              episode_steps := 0, total_steps := 0 }, true) :=
  init_zero_agents_fallback specDefault 6 rfl

/-- C9 counterexample: the agent index -1 is outside the valid range
`[0, n_agents)`, yet `get_obs_agent` returns the last agent's observation
(not a zero vector), and index -99 raises an IndexError (`none`) rather than
returning a zero vector without exception. -/
theorem get_obs_agent_negative_cex :
    get_obs_agent sFour dFour (-1) = some [7, 8] ∧
    some ([7, 8] : List ℚ) ≠ some (zerosObs sFour.obs_shape) ∧
    get_obs_agent sFour dFour (-99) = none := by
  decide

/-- C9 (amended): for every agent index at or above the length of the
current observation list — in particular every index ≥ `n_agents` when the
decision set has `n_agents` members, such as 99 with 4 agents —
`get_obs_agent` returns a zero vector of width `obs_shape` and raises no
exception.  (Negative indices are instead Python-indexed; see the
negative-index behaviour proved separately.) -/
theorem get_obs_agent_oob_zero_vector (s : EnvState) (d : List AgentStep)
    (i : ℤ) (h : ((get_obs s d).length : ℤ) ≤ i) :
    get_obs_agent s d i = some (zerosObs s.obs_shape) := by
  have hn : ¬ i < ((get_obs s d).length : ℤ) := not_lt.mpr h
  simp [get_obs_agent, hn]

/-- Witness for C9 (amended): `get_obs_agent(99)` with 4 agents present. -/
theorem get_obs_agent_oob_zero_vector_w :
    get_obs_agent sFour dFour 99 = some (zerosObs sFour.obs_shape) :=
  get_obs_agent_oob_zero_vector sFour dFour 99 (by decide)

/-- C10: every negative index `i` with `-len(get_obs()) ≤ i < 0` passes the
range guard and is Python-indexed from the back: the result is the
observation at position `len(get_obs()) + i`, which exists (`isSome`), not
the zero-vector fallback. -/
theorem get_obs_agent_negative_python_index (s : EnvState)
    (d : List AgentStep) (i : ℤ)
    (h1 : -((get_obs s d).length : ℤ) ≤ i) (h2 : i < 0) :
    get_obs_agent s d i =
      (get_obs s d).get? (((get_obs s d).length : ℤ) + i).toNat ∧
    ((get_obs s d).get? (((get_obs s d).length : ℤ) + i).toNat).isSome = true := by
  have hlt : i < ((get_obs s d).length : ℤ) := by omega
  have hn1 : ¬ (0 : ℤ) ≤ i := not_le.mpr h2
  have hn2 : (0 : ℤ) ≤ ((get_obs s d).length : ℤ) + i := by omega
  constructor
  · simp only [get_obs_agent, pyIdx]
    rw [if_pos hlt, if_neg hn1, if_pos hn2]
  · have hidx : (((get_obs s d).length : ℤ) + i).toNat < (get_obs s d).length := by
      omega
    rw [List.get?_eq_get hidx]
    rfl

/-- Witness for C10: `get_obs_agent(-1)` with 4 agents present returns the
observation at position 3. -/
theorem get_obs_agent_negative_python_index_w :
    get_obs_agent sFour dFour (-1) =
      (get_obs sFour dFour).get? (((get_obs sFour dFour).length : ℤ) + -1).toNat ∧
    ((get_obs sFour dFour).get?
      (((get_obs sFour dFour).length : ℤ) + -1).toNat).isSome = true :=
  get_obs_agent_negative_python_index sFour dFour (-1) (by decide) (by decide)

end Warehouse
